import Mathlib

/-!
Verification development for the paint-game repository.

The server room (src/server/src/socket-handler.ts), the shared utilities
(src/shared/utils.ts) and configuration (src/shared/config.ts), and the
client pending-paint ledger (src/client/src/game.ts) are shallowly embedded
below.  JavaScript numbers are modelled as rationals; the socket `Map` of
players is an association list keyed by socket id; `Math.random()` in grid
generation is abstracted into an explicit color-choice function passed to
the operations that regenerate the grid.
-/

namespace PaintGame

/-- World position, src/shared/types.ts `Position`. -/
structure Position where
  x : ℚ
  y : ℚ
  deriving Repr, DecidableEq

/-- src/shared/utils.ts `clamp(value, min, max)`. -/
def clamp (value lo hi : ℚ) : ℚ := min (max value lo) hi

/-- src/shared/utils.ts `isInCircularZone(position, centerX, centerY, radius)`. -/
def isInCircularZone (position : Position) (centerX centerY radius : ℚ) : Bool :=
  let dx := position.x - centerX
  let dy := position.y - centerY
  decide (dx * dx + dy * dy ≤ radius * radius)

/-- src/shared/utils.ts `worldToGrid(position, gridSize, cellPixelSize)`:
the grid is centred at the world origin; the cell index on each axis is
`floor((coord + gridSize*cellPixelSize/2) / cellPixelSize)`, and the result is
`none` when either index falls outside `[0, gridSize)`. -/
def worldToGrid (position : Position) (gridSize : ℕ) (cellPixelSize : ℚ) :
    Option (ℤ × ℤ) :=
  let gridPixelSize : ℚ := gridSize * cellPixelSize
  let halfGrid := gridPixelSize / 2
  let gridX : ℤ := ⌊(position.x + halfGrid) / cellPixelSize⌋
  let gridY : ℤ := ⌊(position.y + halfGrid) / cellPixelSize⌋
  if 0 ≤ gridX ∧ gridX < gridSize ∧ 0 ≤ gridY ∧ gridY < gridSize then
    some (gridX, gridY)
  else
    none

/-! Configuration constants from src/shared/config.ts `GAME_CONFIG`. -/

def INITIAL_GRID_SIZE : ℕ := 2
def CELL_PIXEL_SIZE : ℚ := 50
def NUM_COLORS : ℕ := 6
def PAINT_COLORS : List String :=
  ["#FF6B6B", "#4ECDC4", "#45B7D1", "#FFA07A", "#98D8C8", "#F7DC6F", "#BB8FCE", "#85C1E2"]
def AVATAR_COLORS : List String :=
  ["#FF1493", "#00CED1", "#FFD700", "#9370DB", "#FF4500", "#32CD32"]
def MAX_PAINT_SUPPLY : ℚ := 100
def PAINT_COST_PER_CELL : ℚ := 5
def RECHARGE_RATE : ℚ := 2
def GOLD_REWARD_BASE : ℚ := 25
def RECHARGE_ZONE_RADIUS : ℚ := 120
def RECHARGE_ZONE_OFFSET_X : ℚ := 200

/-- src/shared/config.ts `UPGRADES.maxPaintSupply.effectPerLevel`. -/
def MAX_PAINT_SUPPLY_EFFECT_PER_LEVEL : ℚ := 30

/-- The upgrade-adjusted paint capacity as computed by the client
(src/client/src/game.ts line 1788):
`GAME_CONFIG.MAX_PAINT_SUPPLY + level * UPGRADES.maxPaintSupply.effectPerLevel`. -/
def upgradeAdjustedMaxPaintSupply (level : ℕ) : ℚ :=
  MAX_PAINT_SUPPLY + level * MAX_PAINT_SUPPLY_EFFECT_PER_LEVEL

/-! Data model from src/shared/types.ts and the GameRoom fields of
src/server/src/socket-handler.ts. -/

/-- src/shared/types.ts `PlayerUpgrades`.  The server's `addPlayer` initialises
only `movementSpeed: 0`; reading an absent level yields `undefined` and every
server read goes through `|| 0`, so an absent level is modelled as 0. -/
structure PlayerUpgrades where
  movementSpeed : ℕ
  maxPaintSupply : ℕ
  deriving Repr, DecidableEq

/-- src/shared/types.ts `Player` (server-side fields; the client-only
`targetPosition` is not part of the room state). -/
structure Player where
  id : String
  username : String
  position : Position
  color : String
  paintSupply : ℚ
  gold : ℚ
  upgrades : PlayerUpgrades
  deriving Repr, DecidableEq

/-- src/shared/types.ts `GridCell`. -/
structure GridCell where
  x : ℕ
  y : ℕ
  number : ℕ
  currentColor : Option String
  painted : Bool
  deriving Repr, DecidableEq

/-- src/shared/types.ts `PaintCellRequest`. -/
structure PaintCellRequest where
  playerId : String
  position : Position
  colorNumber : ℕ
  deriving Repr, DecidableEq

/-- src/shared/types.ts `PaintEvent`. -/
structure PaintEvent where
  playerId : String
  username : String
  cellX : ℤ
  cellY : ℤ
  color : String
  colorNumber : ℕ
  success : Bool
  deriving Repr, DecidableEq

/-- src/shared/types.ts `GameProgress`; `percentageComplete` is
`Math.round((painted / total) * 100)`. -/
structure GameProgress where
  totalCells : ℕ
  paintedCells : ℕ
  percentageComplete : ℤ
  deriving Repr, DecidableEq

/-- src/shared/types.ts `PaintSupplyUpdate`. -/
structure PaintSupplyUpdate where
  playerId : String
  paintSupply : ℚ
  deriving Repr, DecidableEq

/-- Mutable fields of `GameRoom` (src/server/src/socket-handler.ts lines
26-39).  The socket `Map<string, Player>` is modelled as an association list
keyed by socket id; `colors` and `colorNumberMap` are fixed by the
configuration and modelled as the top-level definitions below. -/
structure GameRoom where
  players : List (String × Player)
  grid : List (List GridCell)
  paintedCellsCount : ℕ
  currentGridSize : ℕ
  deriving Repr, DecidableEq

/-- Embeds `this.colors = GAME_CONFIG.PAINT_COLORS.slice(0, NUM_COLORS)`. -/
def colors : List String := PAINT_COLORS.take NUM_COLORS

/-- Embeds `this.colorNumberMap`: numbers 1..NUM_COLORS map to `colors[i]`;
any other key reads back `undefined`, modelled as `none`. -/
def colorNumberMap (n : ℕ) : Option String :=
  if 1 ≤ n ∧ n ≤ NUM_COLORS then colors.get? (n - 1) else none

/-- Grid construction of `GameRoom.initializeGrid` (lines 41-73): a
`size × size` grid of unpainted cells whose color-number is
`Math.floor(Math.random() * NUM_COLORS) + 1`; the stream of random draws is
abstracted as `randColor`, so cell (x, y) gets `randColor y x % NUM_COLORS + 1`. -/
def makeGrid (randColor : ℕ → ℕ → ℕ) (size : ℕ) : List (List GridCell) :=
  (List.range size).map fun y =>
    (List.range size).map fun x =>
      { x := x, y := y, number := randColor y x % NUM_COLORS + 1,
        currentColor := none, painted := false }

/-- Room state after the `GameRoom` constructor (size `INITIAL_GRID_SIZE`,
freshly generated grid, painted counter 0, no players). -/
def mkGameRoom (randColor : ℕ → ℕ → ℕ) : GameRoom :=
  { players := [], grid := makeGrid randColor INITIAL_GRID_SIZE,
    paintedCellsCount := 0, currentGridSize := INITIAL_GRID_SIZE }

/-- JS `Map.set`: update the entry when the key is present, else append it. -/
def mapSet {α : Type} (l : List (String × α)) (k : String) (v : α) :
    List (String × α) :=
  if l.any (fun kv => kv.1 = k) then
    l.map fun kv => if kv.1 = k then (k, v) else kv
  else
    l ++ [(k, v)]

/-- Embeds `GameRoom.getPlayer` / `this.players.get(socketId)`. -/
def getPlayer (room : GameRoom) (socketId : String) : Option Player :=
  room.players.lookup socketId

/-- Store a (mutated) player back under its socket id. -/
def setPlayer (room : GameRoom) (socketId : String) (p : Player) : GameRoom :=
  { room with players := mapSet room.players socketId p }

/-- Embeds `GameRoom.getAllPlayers`. -/
def getAllPlayers (room : GameRoom) : List Player :=
  room.players.map (fun kv => kv.2)

/-- Embeds `GameRoom.addPlayer` (lines 75-92): fresh player with a cycling avatar
color, full paint supply, zero gold and zero-level upgrades. -/
def addPlayer (room : GameRoom) (socketId username : String)
    (startPosition : Position) : GameRoom × Player :=
  let avatarColor :=
    AVATAR_COLORS.getD (room.players.length % AVATAR_COLORS.length) ""
  let player : Player :=
    { id := socketId, username := username, position := startPosition,
      color := avatarColor, paintSupply := MAX_PAINT_SUPPLY, gold := 0,
      upgrades := { movementSpeed := 0, maxPaintSupply := 0 } }
  (setPlayer room socketId player, player)

/-- Embeds `GameRoom.removePlayer` (lines 94-96). -/
def removePlayer (room : GameRoom) (socketId : String) : GameRoom :=
  { room with players := room.players.filter (fun kv => kv.1 ≠ socketId) }

/-- Embeds `GameRoom.updatePlayerPosition` (lines 106-140): overwrite the stored
position; when the position is inside the recharge circle and the supply is
strictly below `MAX_PAINT_SUPPLY`, add `RECHARGE_RATE` clamped to
`[0, MAX_PAINT_SUPPLY]` and broadcast a `PaintSupplyUpdate` (returned as
`some update`).  Unknown ids leave the room untouched. -/
def updatePlayerPosition (room : GameRoom) (playerId : String)
    (position : Position) : GameRoom × Option PaintSupplyUpdate :=
  match getPlayer room playerId with
  | none => (room, none)
  | some player =>
    let player1 := { player with position := position }
    let gridPixelSize := room.currentGridSize * CELL_PIXEL_SIZE
    let gridHalfSize := gridPixelSize / 2
    let rechargeZoneCenterX := gridHalfSize + RECHARGE_ZONE_OFFSET_X
    let rechargeZoneCenterY : ℚ := 0
    let inRechargeZone := isInCircularZone position rechargeZoneCenterX
      rechargeZoneCenterY RECHARGE_ZONE_RADIUS
    if inRechargeZone = true ∧ player1.paintSupply < MAX_PAINT_SUPPLY then
      let player2 := { player1 with
        paintSupply := clamp (player1.paintSupply + RECHARGE_RATE) 0 MAX_PAINT_SUPPLY }
      (setPlayer room playerId player2, some ⟨player2.id, player2.paintSupply⟩)
    else
      (setPlayer room playerId player1, none)

/-- Embeds `GameRoom.calculateProgress` (lines 143-150). -/
def calculateProgress (room : GameRoom) : GameProgress :=
  let totalCells := room.currentGridSize * room.currentGridSize
  { totalCells := totalCells, paintedCells := room.paintedCellsCount,
    percentageComplete :=
      round ((room.paintedCellsCount : ℚ) / (totalCells : ℚ) * 100) }

/-- Snapshot sent as the GAME_STATE payload, src/shared/types.ts `GameState`
(`colorNumberMap` is the fixed function `colorNumberMap` above and is not a
field here). -/
structure GameState where
  players : List Player
  grid : List (List GridCell)
  gridSize : ℕ
  cellPixelSize : ℚ
  colors : List String
  progress : GameProgress
  deriving Repr, DecidableEq

/-- Embeds `GameRoom.getGameState` (lines 317-327). -/
def getGameState (room : GameRoom) : GameState :=
  { players := getAllPlayers room, grid := room.grid,
    gridSize := room.currentGridSize, cellPixelSize := CELL_PIXEL_SIZE,
    colors := colors, progress := calculateProgress room }

/-- Embeds `this.grid[y]?.[x]`: JS indexing with `undefined` off the ends. -/
def getCell (grid : List (List GridCell)) (gx gy : ℤ) : Option GridCell :=
  if 0 ≤ gx ∧ 0 ≤ gy then
    (grid.get? gy.toNat).bind fun row => row.get? gx.toNat
  else none

/-- In-place mutation of the cell object at (gx, gy). -/
def setCell (grid : List (List GridCell)) (gx gy : ℤ) (c : GridCell) :
    List (List GridCell) :=
  if 0 ≤ gx ∧ 0 ≤ gy then
    match grid.get? gy.toNat with
    | none => grid
    | some row => grid.set gy.toNat (row.set gx.toNat c)
  else grid

/-- Which audience a PAINT_CELL response goes to: `socket.emit` (requester
only) or `io.emit` (broadcast to every client). -/
inductive Delivery
  | toRequester
  | broadcast
  deriving Repr, DecidableEq

/-- The branch of `processPaintCell` that produced the response. -/
inductive PaintOutcome
  | unknownPlayer
  | outOfPaint
  | outsideGrid
  | cellMissing
  | alreadyPainted
  | wrongColor
  | painted
  deriving Repr, DecidableEq

/-- Everything `processPaintCell` does: the room afterwards, the PAINT_CELL
event, its audience, the branch taken, whether a GRID_UPDATE broadcast
happened, and the GAME_STATE snapshot broadcast by `growGrid` when the round
completed (the PAINT_SUPPLY_UPDATE, GAME_PROGRESS, GOLD_UPDATE and
GAME_COMPLETE broadcasts carry values directly readable from these fields and
are not modelled separately). -/
structure PaintStep where
  room : GameRoom
  event : PaintEvent
  delivery : Delivery
  outcome : PaintOutcome
  emitsGrid : Bool
  snapshot : Option GameState
  deriving Repr, DecidableEq

/-- The `gridCoords` fallback of `sendPaintFailure`:
`this.getGridCoords(request.position) || \x7bx: -1, y: -1\x7d`. -/
def failCoords (room : GameRoom) (position : Position) : ℤ × ℤ :=
  (worldToGrid position room.currentGridSize CELL_PIXEL_SIZE).getD (-1, -1)

/-- Embeds `GameRoom.sendPaintFailure` (lines 158-171): failure event to the
requester only. -/
def sendPaintFailure (room : GameRoom) (socketId username : String)
    (request : PaintCellRequest) (outcome : PaintOutcome) : PaintStep :=
  let gridCoords := failCoords room request.position
  let event : PaintEvent :=
    { playerId := socketId, username := username, cellX := gridCoords.1,
      cellY := gridCoords.2, color := "", colorNumber := request.colorNumber,
      success := false }
  { room := room, event := event, delivery := .toRequester,
    outcome := outcome, emitsGrid := false, snapshot := none }

/-- Embeds `GameRoom.awardGoldToAllPlayers` (lines 301-315): every player gains
`currentGridSize * GOLD_REWARD_BASE` gold. -/
def awardGoldToAllPlayers (room : GameRoom) : GameRoom :=
  let goldReward := (room.currentGridSize : ℚ) * GOLD_REWARD_BASE
  { room with players := room.players.map fun kv =>
      (kv.1, { kv.2 with gold := kv.2.gold + goldReward }) }

/-- The size rule of `GameRoom.growGrid` (lines 412-422): `+1` below 10,
otherwise `Math.ceil(currentGridSize * 1.05)`. -/
def growSize (s : ℕ) : ℕ :=
  if s < 10 then s + 1 else (⌈(s : ℚ) * (105 / 100)⌉).toNat

/-- Embeds `GameRoom.growGrid` (lines 412-435): grow the size, regenerate the grid
(resetting the painted counter, as `initializeGrid` does), and broadcast the
full game state; the broadcast snapshot is returned alongside the new room. -/
def growGrid (randColor : ℕ → ℕ → ℕ) (room : GameRoom) :
    GameRoom × GameState :=
  let newSize := growSize room.currentGridSize
  let room1 :=
    { room with currentGridSize := newSize,
                grid := makeGrid randColor newSize, paintedCellsCount := 0 }
  (room1, getGameState room1)

/-- Success-path state mutation of `processPaintCell` (lines 246-260): deduct
the paint cost (floored at 0), paint the cell with the color resolved from
`colorNumberMap` (falling back to `colors[0]`), and bump the running painted
counter.  Returns the updated room and the applied color. -/
def paintApply (room : GameRoom) (socketId : String) (player : Player)
    (gx gy : ℤ) (cell : GridCell) (colorNumber : ℕ) : GameRoom × String :=
  let player1 := { player with
    paintSupply := max 0 (player.paintSupply - PAINT_COST_PER_CELL) }
  let room1 := setPlayer room socketId player1
  let paintColor := (colorNumberMap colorNumber).getD ((colors.get? 0).getD "")
  let cell1 := { cell with currentColor := some paintColor, painted := true }
  let room2 :=
    { room1 with grid := setCell room1.grid gx gy cell1,
                 paintedCellsCount := room1.paintedCellsCount + 1 }
  (room2, paintColor)

/-- Embeds `GameRoom.processPaintCell` (lines 174-294). -/
def processPaintCell (randColor : ℕ → ℕ → ℕ) (room : GameRoom)
    (request : PaintCellRequest) (socketId : String) : PaintStep :=
  match getPlayer room socketId with
  | none => sendPaintFailure room socketId "Unknown" request .unknownPlayer
  | some player =>
    if player.paintSupply < PAINT_COST_PER_CELL then
      sendPaintFailure room socketId player.username request .outOfPaint
    else
      match worldToGrid request.position room.currentGridSize CELL_PIXEL_SIZE with
      | none => sendPaintFailure room socketId player.username request .outsideGrid
      | some (gx, gy) =>
        match getCell room.grid gx gy with
        | none =>
          let event : PaintEvent :=
            { playerId := socketId, username := player.username, cellX := gx,
              cellY := gy, color := "", colorNumber := request.colorNumber,
              success := false }
          { room := room, event := event, delivery := .toRequester,
            outcome := .cellMissing, emitsGrid := false, snapshot := none }
        | some cell =>
          if cell.painted then
            let event : PaintEvent :=
              { playerId := socketId, username := player.username, cellX := gx,
                cellY := gy, color := cell.currentColor.getD "",
                colorNumber := request.colorNumber, success := false }
            { room := room, event := event, delivery := .broadcast,
              outcome := .alreadyPainted, emitsGrid := false, snapshot := none }
          else if cell.number ≠ request.colorNumber then
            let event : PaintEvent :=
              { playerId := socketId, username := player.username, cellX := gx,
                cellY := gy, color := "", colorNumber := request.colorNumber,
                success := false }
            { room := room, event := event, delivery := .broadcast,
              outcome := .wrongColor, emitsGrid := false, snapshot := none }
          else
            let step := paintApply room socketId player gx gy cell request.colorNumber
            let event : PaintEvent :=
              { playerId := socketId, username := player.username, cellX := gx,
                cellY := gy, color := step.2,
                colorNumber := request.colorNumber, success := true }
            let progress := calculateProgress step.1
            if progress.percentageComplete = 100 then
              let room2 := awardGoldToAllPlayers step.1
              let grown := growGrid randColor room2
              { room := grown.1, event := event, delivery := .broadcast,
                outcome := .painted, emitsGrid := true,
                snapshot := some grown.2 }
            else
              { room := step.1, event := event, delivery := .broadcast,
                outcome := .painted, emitsGrid := true, snapshot := none }

/-- Upgrade ids a `PurchaseUpgradeRequest` can carry
(src/shared/types.ts `keyof PlayerUpgrades`). -/
inductive UpgradeId
  | movementSpeed
  | maxPaintSupply
  deriving Repr, DecidableEq

/-- The relevant rows of src/shared/config.ts `GAME_CONFIG.UPGRADES`. -/
structure UpgradeInfo where
  maxLevel : ℕ
  baseCost : ℚ
  costMultiplier : ℚ
  effectPerLevel : ℚ
  deriving Repr, DecidableEq

def UPGRADES : UpgradeId → UpgradeInfo
  | .movementSpeed =>
    { maxLevel := 5, baseCost := 5, costMultiplier := 2, effectPerLevel := 3/4 }
  | .maxPaintSupply =>
    { maxLevel := 5, baseCost := 5, costMultiplier := 2, effectPerLevel := 30 }

/-- Embeds `player.upgrades[upgradeId] || 0`. -/
def getUpgradeLevel (u : PlayerUpgrades) : UpgradeId → ℕ
  | .movementSpeed => u.movementSpeed
  | .maxPaintSupply => u.maxPaintSupply

def setUpgradeLevel (u : PlayerUpgrades) : UpgradeId → ℕ → PlayerUpgrades
  | .movementSpeed, n => { u with movementSpeed := n }
  | .maxPaintSupply, n => { u with maxPaintSupply := n }

/-- src/shared/types.ts `PurchaseUpgradeResponse` (the display `message` is
not modelled). -/
structure PurchaseUpgradeResponse where
  success : Bool
  upgradeId : UpgradeId
  newLevel : ℕ
  newGold : ℚ
  deriving Repr, DecidableEq

/-- Embeds `GameRoom.processPurchaseUpgrade` (lines 330-410).  The `!upgradeConfig`
branch is unreachable here because both members of `keyof PlayerUpgrades`
have a config row. -/
def processPurchaseUpgrade (room : GameRoom) (upgradeId : UpgradeId)
    (socketId : String) : GameRoom × PurchaseUpgradeResponse :=
  match getPlayer room socketId with
  | none =>
    (room, { success := false, upgradeId := upgradeId, newLevel := 0, newGold := 0 })
  | some player =>
    let upgradeConfig := UPGRADES upgradeId
    let currentLevel := getUpgradeLevel player.upgrades upgradeId
    if upgradeConfig.maxLevel ≤ currentLevel then
      (room, { success := false, upgradeId := upgradeId,
               newLevel := currentLevel, newGold := player.gold })
    else
      let cost := upgradeConfig.baseCost * upgradeConfig.costMultiplier ^ currentLevel
      if player.gold < cost then
        (room, { success := false, upgradeId := upgradeId,
                 newLevel := currentLevel, newGold := player.gold })
      else
        let player1 :=
          { player with
            gold := player.gold - cost,
            upgrades := setUpgradeLevel player.upgrades upgradeId (currentLevel + 1) }
        (setPlayer room socketId player1,
          { success := true, upgradeId := upgradeId,
            newLevel := currentLevel + 1, newGold := player1.gold })

/-! Client-side pending-paint ledger, src/client/src/game.ts. -/

/-- Entry of `Game.pendingPaintCells` (game.ts line 837). -/
structure PendingInfo where
  timestamp : ℤ
  retries : ℕ
  position : Position
  colorNumber : ℕ
  deriving Repr, DecidableEq

/-- game.ts line 838: `pendingCellTimeout = 500`. -/
def pendingCellTimeout : ℤ := 500

/-- game.ts line 839: `maxRetries = 2`. -/
def maxRetries : ℕ := 2

/-- The staleness test of the sweep: `now - info.timestamp > pendingCellTimeout`. -/
def isStale (now : ℤ) (info : PendingInfo) : Bool :=
  decide (pendingCellTimeout < now - info.timestamp)

/-- Embeds `Game.cleanupStalePendingCells` (game.ts lines 1540-1564) fused with the
`sendPaintRequest` calls it makes (lines 1091-1105).  The JS code collects
`toRetry` and `toRemove`, deletes the exhausted keys, then for each retry
re-`set`s the same key with `retries + 1` and a fresh `Date.now()` timestamp
and emits a `PaintCellRequest`; on a key-unique map this is, entry for entry,
the `filterMap` below.  `now` stands for the frame's `Date.now()`. -/
def cleanupStalePendingCells (currentPlayerId : String) (now : ℤ)
    (pending : List (String × PendingInfo)) :
    List (String × PendingInfo) × List PaintCellRequest :=
  let step : String × PendingInfo → Option (String × PendingInfo) := fun kv =>
    if isStale now kv.2 then
      if kv.2.retries < maxRetries then
        some (kv.1, { timestamp := now, retries := kv.2.retries + 1,
                      position := kv.2.position, colorNumber := kv.2.colorNumber })
      else none
    else some kv
  let resends := pending.filterMap fun kv =>
    if isStale now kv.2 = true ∧ kv.2.retries < maxRetries then
      some { playerId := currentPlayerId, position := kv.2.position,
             colorNumber := kv.2.colorNumber }
    else none
  (pending.filterMap step, resends)

/-! Concrete data used to exercise the operations. -/

/-- A fixed random stream: every draw is 0, so every generated cell gets
color-number 1. -/
def rc0 : ℕ → ℕ → ℕ := fun _ _ => 0

/-- A freshly constructed 2×2 room with one registered player. -/
def room0 : GameRoom := (addPlayer (mkGameRoom rc0) "p1" "alice" ⟨0, 0⟩).1

/-- Requests whose positions are the centres of the four cells of a 2×2 grid
(cell pixel size 50, grid spanning [-50, 50) on each axis). -/
def reqA : PaintCellRequest := ⟨"p1", ⟨-25, -25⟩, 1⟩
def reqB : PaintCellRequest := ⟨"p1", ⟨25, -25⟩, 1⟩
def reqC : PaintCellRequest := ⟨"p1", ⟨-25, 25⟩, 1⟩
def reqD : PaintCellRequest := ⟨"p1", ⟨25, 25⟩, 1⟩

/-- The four paint steps of the grid-completion scenario, in sequence. -/
def s1 : PaintStep := processPaintCell rc0 room0 reqA "p1"
def s2 : PaintStep := processPaintCell rc0 s1.room reqB "p1"
def s3 : PaintStep := processPaintCell rc0 s2.room reqC "p1"
def s4 : PaintStep := processPaintCell rc0 s3.room reqD "p1"

/-- The player record `addPlayer` stores into `room0`. -/
def playerA : Player :=
  { id := "p1", username := "alice", position := ⟨0, 0⟩, color := "#FF1493",
    paintSupply := 100, gold := 0,
    upgrades := { movementSpeed := 0, maxPaintSupply := 0 } }

/-- A player at full base supply who owns one `maxPaintSupply` upgrade level. -/
def playerTank : Player :=
  { id := "p1", username := "alice", position := ⟨0, 0⟩, color := "#FF1493",
    paintSupply := 100, gold := 0,
    upgrades := { movementSpeed := 0, maxPaintSupply := 1 } }

/-- A 2×2 room containing only `playerTank`. -/
def roomTank : GameRoom :=
  { players := [("p1", playerTank)], grid := makeGrid rc0 2,
    paintedCellsCount := 0, currentGridSize := 2 }

/-- The centre of the recharge zone of a 2×2 room:
`2 * 50 / 2 + 200 = 250`. -/
def posZone : Position := ⟨250, 0⟩

/-- A pending-paint ledger with a stale retryable entry, a stale exhausted
entry and a young entry (swept at `now = 1000`). -/
def pending0 : List (String × PendingInfo) :=
  [("0,0", ⟨0, 0, ⟨-25, -25⟩, 1⟩),
   ("1,0", ⟨0, 2, ⟨25, -25⟩, 1⟩),
   ("0,1", ⟨900, 0, ⟨-25, 25⟩, 1⟩)]

/-! Invariants used by the theorems below. -/

/-- The grid is a `size × size` matrix. -/
def WellFormed (room : GameRoom) : Prop :=
  room.grid.length = room.currentGridSize ∧
    ∀ row ∈ room.grid, row.length = room.currentGridSize

instance (room : GameRoom) : Decidable (WellFormed room) := by
  unfold WellFormed; infer_instance

/-- Every registered player's paint supply lies in `[0, MAX_PAINT_SUPPLY]`. -/
def SupplyInv (room : GameRoom) : Prop :=
  ∀ kv ∈ room.players, 0 ≤ kv.2.paintSupply ∧ kv.2.paintSupply ≤ MAX_PAINT_SUPPLY

instance (room : GameRoom) : Decidable (SupplyInv room) := by
  unfold SupplyInv; infer_instance

end PaintGame

namespace PaintGame

/-! Association-list helper lemmas for the player registry and the pending
ledger. -/

theorem lookup_append_of_ne {α : Type} (l : List (String × α)) (k k' : String)
    (v : α) (h : k' ≠ k) : (l ++ [(k, v)]).lookup k' = l.lookup k' := by
  induction l with
  | nil => simp [List.lookup_cons, beq_false_of_ne h, List.lookup]
  | cons hd tl ih =>
    obtain ⟨k0, v0⟩ := hd
    rw [List.cons_append, List.lookup_cons, List.lookup_cons]
    cases hbeq : k' == k0 with
    | true => rfl
    | false => exact ih

theorem lookup_map_replace_self {α : Type} (l : List (String × α)) (k : String)
    (v : α) (h : l.any (fun kv => kv.1 = k) = true) :
    (l.map fun kv => if kv.1 = k then (k, v) else kv).lookup k = some v := by
  induction l with
  | nil => simp at h
  | cons hd tl ih =>
    obtain ⟨k0, v0⟩ := hd
    by_cases hk : k0 = k
    · subst hk
      simp [List.lookup_cons]
    · rw [List.map_cons]
      simp only [if_neg hk]
      rw [List.lookup_cons]
      rw [show (k == k0) = false from beq_false_of_ne (Ne.symm hk)]
      apply ih
      simpa [hk] using h

theorem lookup_map_replace_ne {α : Type} (l : List (String × α)) (k k' : String)
    (v : α) (h : k' ≠ k) :
    (l.map fun kv => if kv.1 = k then (k, v) else kv).lookup k' = l.lookup k' := by
  induction l with
  | nil => simp
  | cons hd tl ih =>
    obtain ⟨k0, v0⟩ := hd
    rw [List.map_cons]
    by_cases hk : k0 = k
    · subst hk
      rw [if_pos rfl, List.lookup_cons, List.lookup_cons,
        show (k' == k0) = false from beq_false_of_ne h]
      exact ih
    · rw [if_neg hk, List.lookup_cons, List.lookup_cons]
      cases hbeq : k' == k0 with
      | true => rfl
      | false => exact ih

theorem lookup_mapSet_self {α : Type} (l : List (String × α)) (k : String)
    (v : α) : (mapSet l k v).lookup k = some v := by
  unfold mapSet
  split
  · rename_i h
    exact lookup_map_replace_self l k v h
  · induction l with
    | nil => simp [List.lookup_cons]
    | cons hd tl ih =>
      rename_i h
      obtain ⟨k0, v0⟩ := hd
      simp only [List.any_cons, Bool.or_eq_true, decide_eq_true_eq, not_or] at h
      rw [List.cons_append, List.lookup_cons,
        show (k == k0) = false from beq_false_of_ne (Ne.symm h.1)]
      exact ih (by simpa using h.2)

theorem lookup_mapSet_ne {α : Type} (l : List (String × α)) (k k' : String)
    (v : α) (h : k' ≠ k) : (mapSet l k v).lookup k' = l.lookup k' := by
  unfold mapSet
  split
  · exact lookup_map_replace_ne l k k' v h
  · exact lookup_append_of_ne l k k' v h

theorem mem_mapSet {α : Type} (l : List (String × α)) (k : String) (v : α) :
    ∀ kv ∈ mapSet l k v, kv.2 = v ∨ kv ∈ l := by
  intro kv hkv
  unfold mapSet at hkv
  split at hkv
  · rw [List.mem_map] at hkv
    obtain ⟨kv0, hkv0, heq⟩ := hkv
    by_cases hk : kv0.1 = k
    · rw [if_pos hk] at heq
      left
      rw [← heq]
    · rw [if_neg hk] at heq
      right
      rw [← heq]
      exact hkv0
  · rw [List.mem_append] at hkv
    rcases hkv with hmem | hmem
    · right; exact hmem
    · left
      simp only [List.mem_singleton] at hmem
      rw [hmem]

theorem lookup_mem {α : Type} {l : List (String × α)} {k : String} {v : α}
    (h : l.lookup k = some v) : (k, v) ∈ l := by
  induction l with
  | nil => simp [List.lookup] at h
  | cons hd tl ih =>
    obtain ⟨k0, v0⟩ := hd
    rw [List.lookup_cons] at h
    cases hbeq : k == k0 with
    | true =>
      rw [hbeq] at h
      simp only [Option.some.injEq] at h
      rw [eq_of_beq hbeq, h]
      exact List.mem_cons_self _ _
    | false =>
      rw [hbeq] at h
      exact List.mem_cons_of_mem _ (ih h)

theorem keys_nodup_mem_unique {α : Type} {l : List (String × α)}
    (hnd : (l.map Prod.fst).Nodup) {k : String} {a b : α}
    (ha : (k, a) ∈ l) (hb : (k, b) ∈ l) : a = b := by
  induction l with
  | nil => simp at ha
  | cons hd tl ih =>
    rw [List.map_cons, List.nodup_cons] at hnd
    rcases List.mem_cons.mp ha with ha0 | ha0 <;>
      rcases List.mem_cons.mp hb with hb0 | hb0
    · rw [← ha0] at hb0
      exact (congrArg Prod.snd hb0).symm
    · exfalso
      have hmem : (k, b).1 ∈ tl.map Prod.fst := List.mem_map_of_mem Prod.fst hb0
      rw [← ha0] at hnd
      exact hnd.1 hmem
    · exfalso
      have hmem : (k, a).1 ∈ tl.map Prod.fst := List.mem_map_of_mem Prod.fst ha0
      rw [← hb0] at hnd
      exact hnd.1 hmem
    · exact ih hnd.2 ha0 hb0

/-! Grid access lemmas. -/

theorem getCell_bounds {grid : List (List GridCell)} {gx gy : ℤ} {cell : GridCell}
    (h : getCell grid gx gy = some cell) :
    0 ≤ gx ∧ 0 ≤ gy ∧ gy.toNat < grid.length := by
  unfold getCell at h
  split at h
  · rename_i hnn
    refine ⟨hnn.1, hnn.2, ?_⟩
    cases hrow : grid.get? gy.toNat with
    | none => rw [hrow] at h; simp at h
    | some row =>
      exact (List.get?_eq_some.mp hrow).1
  · simp at h

theorem getCell_setCell_self {grid : List (List GridCell)} {gx gy : ℤ}
    {cell : GridCell} (c : GridCell) (h : getCell grid gx gy = some cell) :
    getCell (setCell grid gx gy c) gx gy = some c := by
  obtain ⟨hx, hy, -⟩ := getCell_bounds h
  unfold getCell at h
  rw [if_pos ⟨hx, hy⟩] at h
  cases hrow : grid.get? gy.toNat with
  | none => rw [hrow] at h; simp at h
  | some row =>
    rw [hrow] at h
    simp only [Option.some_bind] at h
    have hylt : gy.toNat < grid.length := (List.get?_eq_some.mp hrow).1
    have hxlt : gx.toNat < row.length := (List.get?_eq_some.mp h).1
    unfold setCell
    rw [if_pos ⟨hx, hy⟩, hrow]
    unfold getCell
    rw [if_pos ⟨hx, hy⟩, List.get?_set_eq_of_lt _ hylt]
    simp only [Option.some_bind]
    exact List.get?_set_eq_of_lt _ hxlt

theorem getCell_setCell_other {grid : List (List GridCell)} {gx gy gx' gy' : ℤ}
    (c : GridCell) (hne : ¬(gx' = gx ∧ gy' = gy)) :
    getCell (setCell grid gx gy c) gx' gy' = getCell grid gx' gy' := by
  by_cases hnn : 0 ≤ gx ∧ 0 ≤ gy
  case neg =>
    unfold setCell
    rw [if_neg hnn]
  case pos =>
    unfold setCell
    rw [if_pos hnn]
    cases hrow : grid.get? gy.toNat with
    | none => rfl
    | some row =>
      by_cases hnn' : 0 ≤ gx' ∧ 0 ≤ gy'
      case neg =>
        unfold getCell
        rw [if_neg hnn', if_neg hnn']
      case pos =>
        unfold getCell
        rw [if_pos hnn', if_pos hnn']
        by_cases hyy : gy' = gy
        · subst hyy
          have hxx : gx' ≠ gx := fun hc => hne ⟨hc, rfl⟩
          have htn : gx.toNat ≠ gx'.toNat := by
            intro hc
            apply hxx
            rw [← Int.toNat_of_nonneg hnn'.1, ← Int.toNat_of_nonneg hnn.1, hc]
          have hylt : gy'.toNat < grid.length := (List.get?_eq_some.mp hrow).1
          rw [List.get?_set_eq_of_lt _ hylt, hrow]
          simp only [Option.some_bind]
          exact List.get?_set_ne _ _ htn
        · have htn : gy.toNat ≠ gy'.toNat := by
            intro hc
            apply hyy
            rw [← Int.toNat_of_nonneg hnn'.2, ← Int.toNat_of_nonneg hnn.2, ← hc]
          rw [List.get?_set_ne _ _ htn]

theorem getCell_of_wf {room : GameRoom} (hwf : WellFormed room) {gx gy : ℤ}
    (hx0 : 0 ≤ gx) (hx : gx < (room.currentGridSize : ℤ))
    (hy0 : 0 ≤ gy) (hy : gy < (room.currentGridSize : ℤ)) :
    ∃ cell, getCell room.grid gx gy = some cell := by
  unfold getCell
  rw [if_pos ⟨hx0, hy0⟩]
  have hylt : gy.toNat < room.grid.length := by
    rw [hwf.1]
    omega
  cases hrow : room.grid.get? gy.toNat with
  | none =>
    rw [List.get?_eq_none] at hrow
    omega
  | some row =>
    simp only [Option.some_bind]
    have hrowmem : row ∈ room.grid := List.get?_mem hrow
    have hxlt : gx.toNat < row.length := by
      rw [hwf.2 row hrowmem]
      omega
    cases hcell : row.get? gx.toNat with
    | none =>
      rw [List.get?_eq_none] at hcell
      omega
    | some cell => exact ⟨cell, rfl⟩

/-! `makeGrid` lemmas. -/

theorem makeGrid_length (rc : ℕ → ℕ → ℕ) (size : ℕ) :
    (makeGrid rc size).length = size := by
  simp [makeGrid]

theorem makeGrid_row_length (rc : ℕ → ℕ → ℕ) (size : ℕ) :
    ∀ row ∈ makeGrid rc size, row.length = size := by
  intro row hrow
  unfold makeGrid at hrow
  rw [List.mem_map] at hrow
  obtain ⟨y, -, rfl⟩ := hrow
  simp

theorem makeGrid_cells (rc : ℕ → ℕ → ℕ) (size : ℕ) :
    ∀ row ∈ makeGrid rc size, ∀ cell ∈ row,
      cell.painted = false ∧ cell.currentColor = none := by
  intro row hrow cell hcell
  unfold makeGrid at hrow
  rw [List.mem_map] at hrow
  obtain ⟨y, -, rfl⟩ := hrow
  rw [List.mem_map] at hcell
  obtain ⟨x, -, rfl⟩ := hcell
  exact ⟨rfl, rfl⟩

theorem getCell_makeGrid {rc : ℕ → ℕ → ℕ} {size : ℕ} {gx gy : ℤ}
    {cell : GridCell} (h : getCell (makeGrid rc size) gx gy = some cell) :
    cell = { x := gx.toNat, y := gy.toNat,
             number := rc gy.toNat gx.toNat % NUM_COLORS + 1,
             currentColor := none, painted := false } := by
  unfold getCell makeGrid at h
  split at h
  · rw [List.get?_map] at h
    cases hr : (List.range size).get? gy.toNat with
    | none => rw [hr] at h; simp at h
    | some y =>
      rw [hr] at h
      have hylt : gy.toNat < size := by
        have := (List.get?_eq_some.mp hr).1
        simpa using this
      have hy : y = gy.toNat := by
        have h2 := List.get?_range hylt
        rw [hr] at h2
        exact Option.some.inj h2
      subst hy
      simp only [Option.map_some', Option.some_bind, List.get?_map] at h
      cases hx : (List.range size).get? gx.toNat with
      | none => rw [hx] at h; simp at h
      | some x =>
        rw [hx] at h
        have hxlt : gx.toNat < size := by
          have := (List.get?_eq_some.mp hx).1
          simpa using this
        have hx2 : x = gx.toNat := by
          have h2 := List.get?_range hxlt
          rw [hx] at h2
          exact Option.some.inj h2
        subst hx2
        simp only [Option.map_some', Option.some.injEq] at h
        exact h.symm
  · simp at h

theorem makeGrid_wf (rc : ℕ → ℕ → ℕ) (room : GameRoom)
    (hg : room.grid = makeGrid rc room.currentGridSize) : WellFormed room := by
  constructor
  · rw [hg]; exact makeGrid_length rc room.currentGridSize
  · intro row hrow
    rw [hg] at hrow
    exact makeGrid_row_length rc room.currentGridSize row hrow

/-! Size growth. -/

theorem lt_growSize (s : ℕ) : s < growSize s := by
  unfold growSize
  split
  · omega
  · rename_i h
    push_neg at h
    have hs : (0 : ℚ) < (s : ℚ) := by
      have : (0 : ℕ) < s := by omega
      exact_mod_cast this
    have h1 : (s : ℚ) < (s : ℚ) * (105 / 100) := by nlinarith
    have h2 : (s : ℤ) < ⌈(s : ℚ) * (105 / 100)⌉ := by
      rw [Int.lt_ceil]
      push_cast
      exact h1
    exact Int.lt_toNat.mpr h2

/-! Supply-bound helper lemmas. -/

theorem clamp_supply_bounds (v : ℚ) :
    0 ≤ clamp v 0 MAX_PAINT_SUPPLY ∧ clamp v 0 MAX_PAINT_SUPPLY ≤ MAX_PAINT_SUPPLY := by
  unfold clamp MAX_PAINT_SUPPLY
  constructor
  · exact le_min (le_max_right _ _) (by norm_num)
  · exact min_le_right _ _

theorem deduct_supply_bounds {s : ℚ} (hs : 0 ≤ s ∧ s ≤ MAX_PAINT_SUPPLY) :
    0 ≤ max 0 (s - PAINT_COST_PER_CELL) ∧
      max 0 (s - PAINT_COST_PER_CELL) ≤ MAX_PAINT_SUPPLY := by
  have h2 : s ≤ 100 := hs.2
  refine ⟨le_max_left _ _, max_le ?_ ?_⟩
  · norm_num [MAX_PAINT_SUPPLY]
  · show s - PAINT_COST_PER_CELL ≤ MAX_PAINT_SUPPLY
    unfold PAINT_COST_PER_CELL MAX_PAINT_SUPPLY
    linarith

theorem supplyInv_setPlayer {room : GameRoom} (h : SupplyInv room)
    {sid : String} {p : Player}
    (hp : 0 ≤ p.paintSupply ∧ p.paintSupply ≤ MAX_PAINT_SUPPLY) :
    SupplyInv (setPlayer room sid p) := by
  intro kv hkv
  rcases mem_mapSet room.players sid p kv hkv with hv | hv
  · rw [hv]
    exact hp
  · exact h kv hv

theorem supplyInv_of_players_eq {r1 r2 : GameRoom}
    (h12 : r2.players = r1.players) (h : SupplyInv r1) : SupplyInv r2 := by
  intro kv hkv
  exact h kv (h12 ▸ hkv)

theorem supplyInv_awardGold {room : GameRoom} (h : SupplyInv room) :
    SupplyInv (awardGoldToAllPlayers room) := by
  intro kv hkv
  unfold awardGoldToAllPlayers at hkv
  simp only [List.mem_map] at hkv
  obtain ⟨kv0, hkv0, rfl⟩ := hkv
  exact h kv0 hkv0

theorem supplyInv_paintApply {room : GameRoom} (h : SupplyInv room)
    {sid : String} {p : Player} (hp : getPlayer room sid = some p)
    (gx gy : ℤ) (cell : GridCell) (n : ℕ) :
    SupplyInv (paintApply room sid p gx gy cell n).1 := by
  intro kv hkv
  refine supplyInv_setPlayer h ?_ kv hkv
  exact deduct_supply_bounds (h _ (lookup_mem hp))

theorem worldToGrid_bounds {position : Position} {gridSize : ℕ}
    {cellPixelSize : ℚ} {gx gy : ℤ}
    (h : worldToGrid position gridSize cellPixelSize = some (gx, gy)) :
    0 ≤ gx ∧ gx < (gridSize : ℤ) ∧ 0 ≤ gy ∧ gy < (gridSize : ℤ) := by
  unfold worldToGrid at h
  dsimp only at h
  split at h
  · rename_i hb
    simp only [Option.some.injEq, Prod.mk.injEq] at h
    obtain ⟨rfl, rfl⟩ := h
    exact hb
  · simp at h

/-- Exhaustive branch description of `processPaintCell`: exactly one of the
seven branches of the source function fires, and the returned `PaintStep` is
the corresponding literal. -/
theorem processPaintCell_branches (rc : ℕ → ℕ → ℕ) (room : GameRoom)
    (req : PaintCellRequest) (sid : String) :
    (getPlayer room sid = none ∧
      processPaintCell rc room req sid =
        sendPaintFailure room sid "Unknown" req .unknownPlayer) ∨
    (∃ p, getPlayer room sid = some p ∧
      p.paintSupply < PAINT_COST_PER_CELL ∧
      processPaintCell rc room req sid =
        sendPaintFailure room sid p.username req .outOfPaint) ∨
    (∃ p, getPlayer room sid = some p ∧
      ¬p.paintSupply < PAINT_COST_PER_CELL ∧
      worldToGrid req.position room.currentGridSize CELL_PIXEL_SIZE = none ∧
      processPaintCell rc room req sid =
        sendPaintFailure room sid p.username req .outsideGrid) ∨
    (∃ p gx gy, getPlayer room sid = some p ∧
      ¬p.paintSupply < PAINT_COST_PER_CELL ∧
      worldToGrid req.position room.currentGridSize CELL_PIXEL_SIZE = some (gx, gy) ∧
      getCell room.grid gx gy = none ∧
      processPaintCell rc room req sid =
        ⟨room, ⟨sid, p.username, gx, gy, "", req.colorNumber, false⟩,
          .toRequester, .cellMissing, false, none⟩) ∨
    (∃ p gx gy cell, getPlayer room sid = some p ∧
      ¬p.paintSupply < PAINT_COST_PER_CELL ∧
      worldToGrid req.position room.currentGridSize CELL_PIXEL_SIZE = some (gx, gy) ∧
      getCell room.grid gx gy = some cell ∧
      cell.painted = true ∧
      processPaintCell rc room req sid =
        ⟨room, ⟨sid, p.username, gx, gy, cell.currentColor.getD "",
          req.colorNumber, false⟩, .broadcast, .alreadyPainted, false, none⟩) ∨
    (∃ p gx gy cell, getPlayer room sid = some p ∧
      ¬p.paintSupply < PAINT_COST_PER_CELL ∧
      worldToGrid req.position room.currentGridSize CELL_PIXEL_SIZE = some (gx, gy) ∧
      getCell room.grid gx gy = some cell ∧
      ¬cell.painted = true ∧ cell.number ≠ req.colorNumber ∧
      processPaintCell rc room req sid =
        ⟨room, ⟨sid, p.username, gx, gy, "", req.colorNumber, false⟩,
          .broadcast, .wrongColor, false, none⟩) ∨
    (∃ p gx gy cell, getPlayer room sid = some p ∧
      ¬p.paintSupply < PAINT_COST_PER_CELL ∧
      worldToGrid req.position room.currentGridSize CELL_PIXEL_SIZE = some (gx, gy) ∧
      getCell room.grid gx gy = some cell ∧
      ¬cell.painted = true ∧ cell.number = req.colorNumber ∧
      ((calculateProgress (paintApply room sid p gx gy cell req.colorNumber).1).percentageComplete = 100 →
        processPaintCell rc room req sid =
          ⟨(growGrid rc (awardGoldToAllPlayers (paintApply room sid p gx gy cell req.colorNumber).1)).1,
            ⟨sid, p.username, gx, gy, (paintApply room sid p gx gy cell req.colorNumber).2,
              req.colorNumber, true⟩, .broadcast, .painted, true,
            some (growGrid rc (awardGoldToAllPlayers (paintApply room sid p gx gy cell req.colorNumber).1)).2⟩) ∧
      (¬(calculateProgress (paintApply room sid p gx gy cell req.colorNumber).1).percentageComplete = 100 →
        processPaintCell rc room req sid =
          ⟨(paintApply room sid p gx gy cell req.colorNumber).1,
            ⟨sid, p.username, gx, gy, (paintApply room sid p gx gy cell req.colorNumber).2,
              req.colorNumber, true⟩, .broadcast, .painted, true, none⟩)) := by
  unfold processPaintCell
  cases hp : getPlayer room sid with
  | none => exact Or.inl ⟨rfl, rfl⟩
  | some p =>
    dsimp only
    by_cases hsup : p.paintSupply < PAINT_COST_PER_CELL
    · rw [if_pos hsup]
      exact Or.inr (Or.inl ⟨p, rfl, hsup, rfl⟩)
    · rw [if_neg hsup]
      cases hw : worldToGrid req.position room.currentGridSize CELL_PIXEL_SIZE with
      | none => exact Or.inr (Or.inr (Or.inl ⟨p, rfl, hsup, rfl, rfl⟩))
      | some gc =>
        obtain ⟨gx, gy⟩ := gc
        dsimp only
        cases hc : getCell room.grid gx gy with
        | none =>
          exact Or.inr (Or.inr (Or.inr (Or.inl ⟨p, gx, gy, rfl, hsup, rfl, hc, rfl⟩)))
        | some cell =>
          dsimp only
          by_cases hpd : cell.painted = true
          · rw [if_pos hpd]
            exact Or.inr (Or.inr (Or.inr (Or.inr (Or.inl
              ⟨p, gx, gy, cell, rfl, hsup, rfl, hc, hpd, rfl⟩))))
          · rw [if_neg hpd]
            by_cases hnum : cell.number ≠ req.colorNumber
            · rw [if_pos hnum]
              exact Or.inr (Or.inr (Or.inr (Or.inr (Or.inr (Or.inl
                ⟨p, gx, gy, cell, rfl, hsup, rfl, hc, hpd, hnum, rfl⟩)))))
            · rw [if_neg hnum]
              push_neg at hnum
              refine Or.inr (Or.inr (Or.inr (Or.inr (Or.inr (Or.inr
                ⟨p, gx, gy, cell, rfl, hsup, rfl, hc, hpd, hnum, ?_, ?_⟩)))))
              · intro hprog
                rw [if_pos hprog]
              · intro hprog
                rw [if_neg hprog]

/-! Definitional projections of the success-path state update. -/

theorem paintApply_grid (room : GameRoom) (sid : String) (p : Player)
    (gx gy : ℤ) (cell : GridCell) (n : ℕ) :
    (paintApply room sid p gx gy cell n).1.grid =
      setCell room.grid gx gy
        { cell with currentColor := some ((paintApply room sid p gx gy cell n).2),
                    painted := true } := rfl

theorem paintApply_count (room : GameRoom) (sid : String) (p : Player)
    (gx gy : ℤ) (cell : GridCell) (n : ℕ) :
    (paintApply room sid p gx gy cell n).1.paintedCellsCount =
      room.paintedCellsCount + 1 := rfl

theorem paintApply_size (room : GameRoom) (sid : String) (p : Player)
    (gx gy : ℤ) (cell : GridCell) (n : ℕ) :
    (paintApply room sid p gx gy cell n).1.currentGridSize =
      room.currentGridSize := rfl

theorem paintApply_players (room : GameRoom) (sid : String) (p : Player)
    (gx gy : ℤ) (cell : GridCell) (n : ℕ) :
    (paintApply room sid p gx gy cell n).1.players =
      mapSet room.players sid
        { p with paintSupply := max 0 (p.paintSupply - PAINT_COST_PER_CELL) } := rfl

theorem awardGold_size (room : GameRoom) :
    (awardGoldToAllPlayers room).currentGridSize = room.currentGridSize := rfl

theorem growGrid_size (rc : ℕ → ℕ → ℕ) (room : GameRoom) :
    (growGrid rc room).1.currentGridSize = growSize room.currentGridSize := rfl

/-- Claim C7: the PAINT_CELL response is delivered to the requester only
exactly for the unknown-player, out-of-paint and outside-grid failures; it is
broadcast to all clients exactly for the already-painted failure, the
wrong-color failure and success; only success additionally broadcasts the
grid update; and the event reports success exactly on the success branch. -/
theorem paint_response_routing (rc : ℕ → ℕ → ℕ) (room : GameRoom)
    (req : PaintCellRequest) (sid : String) (hwf : WellFormed room) :
    ((processPaintCell rc room req sid).delivery = Delivery.toRequester ↔
      ((processPaintCell rc room req sid).outcome = .unknownPlayer ∨
       (processPaintCell rc room req sid).outcome = .outOfPaint ∨
       (processPaintCell rc room req sid).outcome = .outsideGrid)) ∧
    ((processPaintCell rc room req sid).delivery = Delivery.broadcast ↔
      ((processPaintCell rc room req sid).outcome = .alreadyPainted ∨
       (processPaintCell rc room req sid).outcome = .wrongColor ∨
       (processPaintCell rc room req sid).outcome = .painted)) ∧
    ((processPaintCell rc room req sid).emitsGrid = true ↔
      (processPaintCell rc room req sid).outcome = .painted) ∧
    ((processPaintCell rc room req sid).event.success = true ↔
      (processPaintCell rc room req sid).outcome = .painted) := by
  rcases processPaintCell_branches rc room req sid with
    ⟨hp, heq⟩ | ⟨p, hp, hsup, heq⟩ | ⟨p, hp, hsup, hw2, heq⟩ |
    ⟨p, gx2, gy2, hp, hsup, hw2, hc2, heq⟩ |
    ⟨p, gx2, gy2, cell2c, hp, hsup, hw2, hc2, hpd, heq⟩ |
    ⟨p, gx2, gy2, cell2c, hp, hsup, hw2, hc2, hpd, hnum, heq⟩ |
    ⟨p, gx2, gy2, cell2c, hp, hsup, hw2, hc2, hpd, hnum, hcomp, hncomp⟩
  · rw [heq]
    simp [sendPaintFailure]
  · rw [heq]
    simp [sendPaintFailure]
  · rw [heq]
    simp [sendPaintFailure]
  · exfalso
    obtain ⟨hx0, hx1, hy0, hy1⟩ := worldToGrid_bounds hw2
    obtain ⟨c, hcc⟩ := getCell_of_wf hwf hx0 hx1 hy0 hy1
    rw [hc2] at hcc
    exact Option.noConfusion hcc
  · rw [heq]
    simp
  · rw [heq]
    simp
  · by_cases hprog : (calculateProgress
        (paintApply room sid p gx2 gy2 cell2c req.colorNumber).1).percentageComplete = 100
    · rw [hcomp hprog]
      simp
    · rw [hncomp hprog]
      simp

/-- Claim C4: a painted cell is final — a paint request resolving to an
already-painted cell never succeeds and leaves the room unchanged, whatever
colorNumber it carries; and within one grid generation (no regeneration, i.e.
the grid size is unchanged by the request) a painted cell stays painted. -/
theorem painted_cell_is_final (rc : ℕ → ℕ → ℕ) (room : GameRoom)
    (req : PaintCellRequest) (sid : String) :
    (∀ gx gy : ℤ, ∀ cell : GridCell,
      worldToGrid req.position room.currentGridSize CELL_PIXEL_SIZE = some (gx, gy) →
      getCell room.grid gx gy = some cell → cell.painted = true →
      (processPaintCell rc room req sid).event.success = false ∧
      (processPaintCell rc room req sid).room = room) ∧
    ((processPaintCell rc room req sid).room.currentGridSize = room.currentGridSize →
      ∀ gx gy : ℤ, ∀ cell : GridCell,
      getCell room.grid gx gy = some cell → cell.painted = true →
      ∃ cell2, getCell (processPaintCell rc room req sid).room.grid gx gy = some cell2 ∧
        cell2.painted = true) := by
  constructor
  · intro gx gy cell hw hc hpainted
    rcases processPaintCell_branches rc room req sid with
      ⟨hp, heq⟩ | ⟨p, hp, hsup, heq⟩ | ⟨p, hp, hsup, hw2, heq⟩ |
      ⟨p, gx2, gy2, hp, hsup, hw2, hc2, heq⟩ |
      ⟨p, gx2, gy2, cell2c, hp, hsup, hw2, hc2, hpd, heq⟩ |
      ⟨p, gx2, gy2, cell2c, hp, hsup, hw2, hc2, hpd, hnum, heq⟩ |
      ⟨p, gx2, gy2, cell2c, hp, hsup, hw2, hc2, hpd, hnum, hcomp, hncomp⟩
    · rw [heq]
      exact ⟨rfl, rfl⟩
    · rw [heq]
      exact ⟨rfl, rfl⟩
    · rw [heq]
      exact ⟨rfl, rfl⟩
    · rw [heq]
      exact ⟨rfl, rfl⟩
    · rw [heq]
      exact ⟨rfl, rfl⟩
    · rw [heq]
      exact ⟨rfl, rfl⟩
    · exfalso
      rw [hw] at hw2
      obtain ⟨rfl, rfl⟩ : gx2 = gx ∧ gy2 = gy := by
        have h2 := Option.some.inj hw2
        rw [Prod.mk.injEq] at h2
        exact ⟨h2.1.symm, h2.2.symm⟩
      rw [hc] at hc2
      have hcell : cell = cell2c := Option.some.inj hc2
      rw [← hcell] at hpd
      exact hpd hpainted
  · intro hsize gx gy cell hc hpainted
    rcases processPaintCell_branches rc room req sid with
      ⟨hp, heq⟩ | ⟨p, hp, hsup, heq⟩ | ⟨p, hp, hsup, hw2, heq⟩ |
      ⟨p, gx2, gy2, hp, hsup, hw2, hc2, heq⟩ |
      ⟨p, gx2, gy2, cell2c, hp, hsup, hw2, hc2, hpd, heq⟩ |
      ⟨p, gx2, gy2, cell2c, hp, hsup, hw2, hc2, hpd, hnum, heq⟩ |
      ⟨p, gx2, gy2, cell2c, hp, hsup, hw2, hc2, hpd, hnum, hcomp, hncomp⟩
    · rw [heq]
      exact ⟨cell, hc, hpainted⟩
    · rw [heq]
      exact ⟨cell, hc, hpainted⟩
    · rw [heq]
      exact ⟨cell, hc, hpainted⟩
    · rw [heq]
      exact ⟨cell, hc, hpainted⟩
    · rw [heq]
      exact ⟨cell, hc, hpainted⟩
    · rw [heq]
      exact ⟨cell, hc, hpainted⟩
    · by_cases hprog : (calculateProgress
          (paintApply room sid p gx2 gy2 cell2c req.colorNumber).1).percentageComplete = 100
      · exfalso
        rw [hcomp hprog] at hsize
        have hsz : growSize room.currentGridSize = room.currentGridSize := hsize
        have := lt_growSize room.currentGridSize
        omega
      · rw [hncomp hprog]
        show ∃ cell2, getCell (paintApply room sid p gx2 gy2 cell2c req.colorNumber).1.grid
          gx gy = some cell2 ∧ cell2.painted = true
        rw [paintApply_grid]
        by_cases hsame : gx = gx2 ∧ gy = gy2
        · obtain ⟨rfl, rfl⟩ := hsame
          rw [hc] at hc2
          have hcell : cell = cell2c := Option.some.inj hc2
          rw [← hcell] at hpd
          exact absurd hpainted hpd
        · rw [getCell_setCell_other _ hsame]
          exact ⟨cell, hc, hpainted⟩

theorem getPlayer_paintApply (room : GameRoom) (sid : String) (p : Player)
    (gx gy : ℤ) (cell : GridCell) (n : ℕ) :
    getPlayer (paintApply room sid p gx gy cell n).1 sid =
      some { p with paintSupply := max 0 (p.paintSupply - PAINT_COST_PER_CELL) } := by
  unfold getPlayer
  rw [paintApply_players]
  exact lookup_mapSet_self _ _ _

/-- Claim C1 (amended): a paint request fails exactly when the player is
unknown, or the supply is below the per-cell cost, or the position maps to no
grid cell, or the target cell is already painted, or the colorNumber differs
from the cell's number; a failing request leaves the room unchanged; and a
successful request in one atomic step deducts the paint cost from the
player's supply, sets the cell's color and painted flag, increments the
room's running painted counter, and returns an event carrying the resolved
grid coordinates and the applied color (when the paint completes the grid,
the final room additionally goes through the gold award and grid growth). -/
theorem processPaintCell_spec (rc : ℕ → ℕ → ℕ) (room : GameRoom)
    (req : PaintCellRequest) (sid : String) (hwf : WellFormed room) :
    ((processPaintCell rc room req sid).event.success = false ↔
      (getPlayer room sid = none ∨
       (∃ p, getPlayer room sid = some p ∧ p.paintSupply < PAINT_COST_PER_CELL) ∨
       worldToGrid req.position room.currentGridSize CELL_PIXEL_SIZE = none ∨
       (∃ gx gy : ℤ, ∃ cell : GridCell,
         worldToGrid req.position room.currentGridSize CELL_PIXEL_SIZE = some (gx, gy) ∧
         getCell room.grid gx gy = some cell ∧
         (cell.painted = true ∨ cell.number ≠ req.colorNumber)))) ∧
    ((processPaintCell rc room req sid).event.success = false →
      (processPaintCell rc room req sid).room = room) ∧
    (∀ p : Player, ∀ gx gy : ℤ, ∀ cell : GridCell,
      getPlayer room sid = some p →
      worldToGrid req.position room.currentGridSize CELL_PIXEL_SIZE = some (gx, gy) →
      getCell room.grid gx gy = some cell →
      (processPaintCell rc room req sid).event.success = true →
      getPlayer (paintApply room sid p gx gy cell req.colorNumber).1 sid =
        some { p with paintSupply := p.paintSupply - PAINT_COST_PER_CELL } ∧
      getCell (paintApply room sid p gx gy cell req.colorNumber).1.grid gx gy =
        some { cell with
          currentColor := some ((paintApply room sid p gx gy cell req.colorNumber).2),
          painted := true } ∧
      (paintApply room sid p gx gy cell req.colorNumber).1.paintedCellsCount =
        room.paintedCellsCount + 1 ∧
      (processPaintCell rc room req sid).event.cellX = gx ∧
      (processPaintCell rc room req sid).event.cellY = gy ∧
      (processPaintCell rc room req sid).event.color =
        (paintApply room sid p gx gy cell req.colorNumber).2 ∧
      (processPaintCell rc room req sid).room =
        (if (calculateProgress
            (paintApply room sid p gx gy cell req.colorNumber).1).percentageComplete = 100
         then (growGrid rc (awardGoldToAllPlayers
           (paintApply room sid p gx gy cell req.colorNumber).1)).1
         else (paintApply room sid p gx gy cell req.colorNumber).1)) := by
  rcases processPaintCell_branches rc room req sid with
    ⟨hp, heq⟩ | ⟨p, hp, hsup, heq⟩ | ⟨p, hp, hsup, hw2, heq⟩ |
    ⟨p, gx2, gy2, hp, hsup, hw2, hc2, heq⟩ |
    ⟨p, gx2, gy2, cell2c, hp, hsup, hw2, hc2, hpd, heq⟩ |
    ⟨p, gx2, gy2, cell2c, hp, hsup, hw2, hc2, hpd, hnum, heq⟩ |
    ⟨p, gx2, gy2, cell2c, hp, hsup, hw2, hc2, hpd, hnum, hcomp, hncomp⟩
  · refine ⟨iff_of_true ?_ (Or.inl hp), fun _ => ?_, fun p' gx gy cell hp' hw hc hsucc => ?_⟩
    · rw [heq]; rfl
    · rw [heq]; rfl
    · rw [heq] at hsucc
      simp [sendPaintFailure] at hsucc
  · refine ⟨iff_of_true ?_ (Or.inr (Or.inl ⟨p, hp, hsup⟩)), fun _ => ?_,
      fun p' gx gy cell hp' hw hc hsucc => ?_⟩
    · rw [heq]; rfl
    · rw [heq]; rfl
    · rw [heq] at hsucc
      simp [sendPaintFailure] at hsucc
  · refine ⟨iff_of_true ?_ (Or.inr (Or.inr (Or.inl hw2))), fun _ => ?_,
      fun p' gx gy cell hp' hw hc hsucc => ?_⟩
    · rw [heq]; rfl
    · rw [heq]; rfl
    · rw [heq] at hsucc
      simp [sendPaintFailure] at hsucc
  · exfalso
    obtain ⟨hx0, hx1, hy0, hy1⟩ := worldToGrid_bounds hw2
    obtain ⟨c, hcc⟩ := getCell_of_wf hwf hx0 hx1 hy0 hy1
    rw [hc2] at hcc
    exact Option.noConfusion hcc
  · refine ⟨iff_of_true ?_
      (Or.inr (Or.inr (Or.inr ⟨gx2, gy2, cell2c, hw2, hc2, Or.inl hpd⟩))),
      fun _ => ?_, fun p' gx gy cell hp' hw hc hsucc => ?_⟩
    · rw [heq]
    · rw [heq]
    · rw [heq] at hsucc
      exact Bool.noConfusion hsucc
  · refine ⟨iff_of_true ?_
      (Or.inr (Or.inr (Or.inr ⟨gx2, gy2, cell2c, hw2, hc2, Or.inr hnum⟩))),
      fun _ => ?_, fun p' gx gy cell hp' hw hc hsucc => ?_⟩
    · rw [heq]
    · rw [heq]
    · rw [heq] at hsucc
      exact Bool.noConfusion hsucc
  · have hev : (processPaintCell rc room req sid).event =
        ⟨sid, p.username, gx2, gy2,
          (paintApply room sid p gx2 gy2 cell2c req.colorNumber).2,
          req.colorNumber, true⟩ := by
      by_cases hprog : (calculateProgress
          (paintApply room sid p gx2 gy2 cell2c req.colorNumber).1).percentageComplete = 100
      · rw [hcomp hprog]
      · rw [hncomp hprog]
    refine ⟨?_, ?_, ?_⟩
    · rw [hev]
      apply iff_of_false (by simp)
      rintro (hbad | ⟨pb, hpb, hbad⟩ | hbad | ⟨gxb, gyb, cellb, hwb, hcb, hbad⟩)
      · rw [hp] at hbad
        exact Option.noConfusion hbad
      · rw [hp] at hpb
        rw [← Option.some.inj hpb] at hbad
        exact hsup hbad
      · rw [hw2] at hbad
        exact Option.noConfusion hbad
      · rw [hw2] at hwb
        have h2 := Option.some.inj hwb
        rw [Prod.mk.injEq] at h2
        obtain ⟨rfl, rfl⟩ : gxb = gx2 ∧ gyb = gy2 := ⟨h2.1.symm, h2.2.symm⟩
        rw [hc2] at hcb
        rw [← Option.some.inj hcb] at hbad
        rcases hbad with hbad | hbad
        · exact hpd hbad
        · exact hbad hnum
    · intro hfalse
      rw [hev] at hfalse
      exact Bool.noConfusion hfalse
    · intro p' gx gy cell hp' hw hc hsucc
      rw [hp] at hp'
      have hpp : p = p' := Option.some.inj hp'
      subst hpp
      rw [hw2] at hw
      have h2 := Option.some.inj hw
      rw [Prod.mk.injEq] at h2
      obtain ⟨rfl, rfl⟩ : gx2 = gx ∧ gy2 = gy := h2
      rw [hc2] at hc
      have hcc : cell2c = cell := Option.some.inj hc
      subst hcc
      have hmax : max 0 (p.paintSupply - PAINT_COST_PER_CELL) =
          p.paintSupply - PAINT_COST_PER_CELL :=
        max_eq_right (sub_nonneg.mpr (not_lt.mp hsup))
      refine ⟨?_, ?_, paintApply_count room sid p gx2 gy2 cell2c req.colorNumber, ?_, ?_, ?_, ?_⟩
      · rw [getPlayer_paintApply, hmax]
      · rw [paintApply_grid]
        exact getCell_setCell_self _ hc2
      · rw [hev]
      · rw [hev]
      · rw [hev]
      · by_cases hprog : (calculateProgress
            (paintApply room sid p gx2 gy2 cell2c req.colorNumber).1).percentageComplete = 100
        · rw [hcomp hprog, if_pos hprog]
        · rw [hncomp hprog, if_neg hprog]

/-- Claim C2: on grid completion the size becomes `size+1` for `size < 10`
and `ceil(size * 1.05)` otherwise, which in either case is at least
`size + 1`; the grid is regenerated as a fresh well-formed matrix of
unpainted, uncolored cells with random color-numbers, the painted counter
resets to 0, the players (positions, paint supply, gold, upgrades) are
untouched, and the broadcast snapshot is the full state of the new room. -/
theorem growGrid_spec (rc : ℕ → ℕ → ℕ) (room : GameRoom) :
    (growGrid rc room).1.currentGridSize =
      (if room.currentGridSize < 10 then room.currentGridSize + 1
       else (⌈(room.currentGridSize : ℚ) * (105 / 100)⌉).toNat) ∧
    room.currentGridSize + 1 ≤ (growGrid rc room).1.currentGridSize ∧
    (growGrid rc room).1.paintedCellsCount = 0 ∧
    WellFormed (growGrid rc room).1 ∧
    (∀ row ∈ (growGrid rc room).1.grid, ∀ cell ∈ row,
      cell.painted = false ∧ cell.currentColor = none) ∧
    (∀ gx gy : ℤ, ∀ cell : GridCell,
      getCell (growGrid rc room).1.grid gx gy = some cell →
      cell.number = rc gy.toNat gx.toNat % NUM_COLORS + 1) ∧
    (growGrid rc room).1.players = room.players ∧
    (growGrid rc room).2 = getGameState (growGrid rc room).1 := by
  refine ⟨rfl, ?_, rfl, ?_, ?_, ?_, rfl, rfl⟩
  · have := lt_growSize room.currentGridSize
    exact this
  · exact makeGrid_wf rc _ rfl
  · intro row hrow cell hcell
    exact makeGrid_cells rc _ row hrow cell hcell
  · intro gx gy cell hcell
    rw [getCell_makeGrid hcell]

/-- Claim C10: the invariant `0 ≤ paintSupply ≤ MAX_PAINT_SUPPLY = 100` for
every registered player is preserved by every room operation — addPlayer,
position update (recharge), paint processing, gold award, grid growth and
upgrade purchase; in particular no operation ever raises a supply above the
base maximum 100. -/
theorem paintSupply_invariant (room : GameRoom) (h : SupplyInv room) :
    (∀ sid un : String, ∀ pos : Position,
      SupplyInv (addPlayer room sid un pos).1) ∧
    (∀ pid : String, ∀ pos : Position,
      SupplyInv (updatePlayerPosition room pid pos).1) ∧
    (∀ rc : ℕ → ℕ → ℕ, ∀ req : PaintCellRequest, ∀ sid : String,
      SupplyInv (processPaintCell rc room req sid).room) ∧
    SupplyInv (awardGoldToAllPlayers room) ∧
    (∀ rc : ℕ → ℕ → ℕ, SupplyInv (growGrid rc room).1) ∧
    (∀ uid : UpgradeId, ∀ sid : String,
      SupplyInv (processPurchaseUpgrade room uid sid).1) := by
  refine ⟨?_, ?_, ?_, supplyInv_awardGold h, ?_, ?_⟩
  · intro sid un pos
    unfold addPlayer
    dsimp only
    apply supplyInv_setPlayer h
    constructor
    · norm_num [MAX_PAINT_SUPPLY]
    · exact le_refl _
  · intro pid pos
    unfold updatePlayerPosition
    cases hp : getPlayer room pid with
    | none => exact h
    | some p =>
      dsimp only
      split
      · exact supplyInv_setPlayer h (clamp_supply_bounds _)
      · exact supplyInv_setPlayer h (h _ (lookup_mem hp))
  · intro rc req sid
    unfold processPaintCell
    cases hp : getPlayer room sid with
    | none => exact h
    | some p =>
      dsimp only
      split
      · exact h
      · cases hw : worldToGrid req.position room.currentGridSize CELL_PIXEL_SIZE with
        | none => exact h
        | some gc =>
          obtain ⟨gx, gy⟩ := gc
          dsimp only
          cases hc : getCell room.grid gx gy with
          | none => exact h
          | some cell =>
            dsimp only
            split
            · exact h
            · split
              · exact h
              · have hmid := supplyInv_paintApply h hp gx gy cell req.colorNumber
                split
                · exact supplyInv_of_players_eq rfl (supplyInv_awardGold hmid)
                · exact hmid
  · intro rc
    exact supplyInv_of_players_eq rfl h
  · intro uid sid
    unfold processPurchaseUpgrade
    cases hp : getPlayer room sid with
    | none => exact h
    | some p =>
      dsimp only
      split
      · exact h
      · split
        · exact h
        · exact supplyInv_setPlayer h (h _ (lookup_mem hp))

/-- Claim C6 (amended): `updatePosition` for a registered player overwrites
the stored position; when the new position lies inside the recharge circle
and the paint supply is strictly below the configured base maximum
`MAX_PAINT_SUPPLY`, the supply is incremented by `RECHARGE_RATE` clamped to
`[0, MAX_PAINT_SUPPLY]` — the base maximum, not the upgrade-adjusted one —
and a paint-supply update carrying the new value is emitted; otherwise the
supply is unchanged and nothing is emitted.  An unknown connection id leaves
everything unchanged. -/
theorem updatePlayerPosition_spec (room : GameRoom) (pid : String)
    (pos : Position) :
    (getPlayer room pid = none →
      updatePlayerPosition room pid pos = (room, none)) ∧
    (∀ p : Player, getPlayer room pid = some p →
      (getPlayer (updatePlayerPosition room pid pos).1 pid).map Player.position =
        some pos ∧
      (if isInCircularZone pos
            (room.currentGridSize * CELL_PIXEL_SIZE / 2 + RECHARGE_ZONE_OFFSET_X)
            0 RECHARGE_ZONE_RADIUS = true ∧ p.paintSupply < MAX_PAINT_SUPPLY
       then
        (getPlayer (updatePlayerPosition room pid pos).1 pid).map Player.paintSupply =
          some (clamp (p.paintSupply + RECHARGE_RATE) 0 MAX_PAINT_SUPPLY) ∧
        (updatePlayerPosition room pid pos).2 =
          some ⟨p.id, clamp (p.paintSupply + RECHARGE_RATE) 0 MAX_PAINT_SUPPLY⟩
       else
        (getPlayer (updatePlayerPosition room pid pos).1 pid).map Player.paintSupply =
          some p.paintSupply ∧
        (updatePlayerPosition room pid pos).2 = none)) := by
  constructor
  · intro hnone
    unfold updatePlayerPosition
    rw [hnone]
  · intro p hp
    unfold updatePlayerPosition
    rw [hp]
    dsimp only
    by_cases hcond : isInCircularZone pos
        (room.currentGridSize * CELL_PIXEL_SIZE / 2 + RECHARGE_ZONE_OFFSET_X)
        0 RECHARGE_ZONE_RADIUS = true ∧ p.paintSupply < MAX_PAINT_SUPPLY
    · rw [if_pos hcond, if_pos hcond]
      refine ⟨?_, ?_, rfl⟩
      · unfold getPlayer setPlayer
        rw [lookup_mapSet_self]
        rfl
      · unfold getPlayer setPlayer
        rw [lookup_mapSet_self]
        rfl
    · rw [if_neg hcond, if_neg hcond]
      refine ⟨?_, ?_, rfl⟩
      · unfold getPlayer setPlayer
        rw [lookup_mapSet_self]
        rfl
      · unfold getPlayer setPlayer
        rw [lookup_mapSet_self]
        rfl

/-- Claim C9: in the per-frame sweep of the pending paint ledger, an entry
younger than the timeout is kept unchanged; a stale entry with retries under
the limit is re-sent — it reappears with the retry counter incremented by one
and the fresh timestamp, and a paint request for its cell is emitted; a stale
entry whose retries are exhausted is removed from the ledger. -/
theorem cleanupStalePendingCells_spec (cpid : String) (now : ℤ)
    (pending : List (String × PendingInfo))
    (hnd : (pending.map Prod.fst).Nodup) :
    ∀ k : String, ∀ info : PendingInfo, (k, info) ∈ pending →
      (¬pendingCellTimeout < now - info.timestamp →
        (k, info) ∈ (cleanupStalePendingCells cpid now pending).1) ∧
      (pendingCellTimeout < now - info.timestamp → info.retries < maxRetries →
        (k, (⟨now, info.retries + 1, info.position, info.colorNumber⟩ : PendingInfo)) ∈
          (cleanupStalePendingCells cpid now pending).1 ∧
        (⟨cpid, info.position, info.colorNumber⟩ : PaintCellRequest) ∈
          (cleanupStalePendingCells cpid now pending).2) ∧
      (pendingCellTimeout < now - info.timestamp → maxRetries ≤ info.retries →
        ∀ info2 : PendingInfo,
          (k, info2) ∉ (cleanupStalePendingCells cpid now pending).1) := by
  intro k info hmem
  refine ⟨?_, ?_, ?_⟩
  · intro hyoung
    have hs : ¬isStale now info = true := by
      simp only [isStale, decide_eq_true_eq]
      exact hyoung
    unfold cleanupStalePendingCells
    dsimp only
    rw [List.mem_filterMap]
    refine ⟨(k, info), hmem, ?_⟩
    rw [if_neg hs]
  · intro hstale hretry
    have hs : isStale now info = true := by
      simp only [isStale, decide_eq_true_eq]
      exact hstale
    unfold cleanupStalePendingCells
    dsimp only
    constructor
    · rw [List.mem_filterMap]
      refine ⟨(k, info), hmem, ?_⟩
      rw [if_pos hs, if_pos hretry]
    · rw [List.mem_filterMap]
      refine ⟨(k, info), hmem, ?_⟩
      rw [if_pos ⟨hs, hretry⟩]
  · intro hstale hexh info2 hmem2
    unfold cleanupStalePendingCells at hmem2
    dsimp only at hmem2
    rw [List.mem_filterMap] at hmem2
    obtain ⟨⟨k0, i0⟩, hkv0, hstep⟩ := hmem2
    dsimp only at hstep
    by_cases hs0 : isStale now i0 = true
    · rw [if_pos hs0] at hstep
      by_cases hr0 : i0.retries < maxRetries
      · rw [if_pos hr0] at hstep
        have hk0 : k0 = k := congrArg Prod.fst (Option.some.inj hstep)
        subst hk0
        have hii : i0 = info := keys_nodup_mem_unique hnd hkv0 hmem
        rw [hii] at hr0
        omega
      · rw [if_neg hr0] at hstep
        exact Option.noConfusion hstep
    · rw [if_neg hs0] at hstep
      have hkk := Option.some.inj hstep
      have hk0 : k0 = k := congrArg Prod.fst hkk
      subst hk0
      have hii : i0 = info := keys_nodup_mem_unique hnd hkv0 hmem
      apply hs0
      simp only [isStale, decide_eq_true_eq, hii]
      exact hstale

/-- Claim C5: worldToGrid maps a position to the cell with coordinates
floor((coord + size*cellPixelSize/2) / cellPixelSize) on each axis, and returns
none exactly when the computed coordinate on either axis lies outside [0, size). -/
theorem worldToGrid_characterization (position : Position) (gridSize : ℕ)
    (cellPixelSize : ℚ) (gx gy : ℤ) :
    (worldToGrid position gridSize cellPixelSize = some (gx, gy) ↔
      gx = ⌊(position.x + gridSize * cellPixelSize / 2) / cellPixelSize⌋ ∧
      gy = ⌊(position.y + gridSize * cellPixelSize / 2) / cellPixelSize⌋ ∧
      0 ≤ gx ∧ gx < gridSize ∧ 0 ≤ gy ∧ gy < gridSize) ∧
    (worldToGrid position gridSize cellPixelSize = none ↔
      (⌊(position.x + gridSize * cellPixelSize / 2) / cellPixelSize⌋ < 0 ∨
        (gridSize : ℤ) ≤ ⌊(position.x + gridSize * cellPixelSize / 2) / cellPixelSize⌋ ∨
        ⌊(position.y + gridSize * cellPixelSize / 2) / cellPixelSize⌋ < 0 ∨
        (gridSize : ℤ) ≤ ⌊(position.y + gridSize * cellPixelSize / 2) / cellPixelSize⌋)) := by
  unfold worldToGrid
  dsimp only
  constructor
  · split
    · rename_i h
      simp only [Option.some.injEq, Prod.mk.injEq]
      constructor
      · rintro ⟨rfl, rfl⟩
        exact ⟨rfl, rfl, h.1, h.2.1, h.2.2.1, h.2.2.2⟩
      · rintro ⟨rfl, rfl, -⟩
        exact ⟨rfl, rfl⟩
    · rename_i h
      simp only [reduceCtorEq, false_iff]
      rintro ⟨rfl, rfl, h1, h2, h3, h4⟩
      exact h ⟨h1, h2, h3, h4⟩
  · split
    · rename_i h
      simp only [reduceCtorEq, false_iff]
      push_neg
      exact ⟨h.1, h.2.1, h.2.2.1, h.2.2.2⟩
    · rename_i h
      simp only [true_iff]
      push_neg at h
      by_cases h1 : 0 ≤ ⌊(position.x + gridSize * cellPixelSize / 2) / cellPixelSize⌋
      · by_cases h2 :
          ⌊(position.x + gridSize * cellPixelSize / 2) / cellPixelSize⌋ < (gridSize : ℤ)
        · by_cases h3 : 0 ≤ ⌊(position.y + gridSize * cellPixelSize / 2) / cellPixelSize⌋
          · right; right; right
            exact h h1 h2 h3
          · right; right; left; exact lt_of_not_le h3
        · right; left; exact le_of_not_lt h2
      · left; exact lt_of_not_le h1

/-- Claim C8: for in-bounds grid coordinates (x, y) on a grid of size N with
cell pixel size c, the world position at the centre of cell (x, y), namely
(-N*c/2 + (x+0.5)*c, -N*c/2 + (y+0.5)*c), converts back via worldToGrid to
exactly (x, y). -/
theorem worldToGrid_cell_center_roundtrip (N : ℕ) (c : ℚ) (x y : ℕ)
    (hc : 0 < c) (hx : x < N) (hy : y < N) :
    worldToGrid
      ⟨-(N * c) / 2 + ((x : ℚ) + 1/2) * c, -(N * c) / 2 + ((y : ℚ) + 1/2) * c⟩
      N c = some ((x : ℤ), (y : ℤ)) := by
  have hc0 : c ≠ 0 := ne_of_gt hc
  have key : ∀ k : ℕ, (-(N * c) / 2 + ((k : ℚ) + 1/2) * c + N * c / 2) / c
      = (k : ℚ) + 1/2 := by
    intro k
    field_simp
    ring
  have floorkey : ∀ k : ℕ, ⌊(k : ℚ) + 1/2⌋ = (k : ℤ) := by
    intro k
    rw [Int.floor_eq_iff]
    constructor
    · push_cast
      linarith
    · push_cast
      linarith
  unfold worldToGrid
  simp only [key, floorkey]
  have hxb : (x : ℤ) < (N : ℤ) := by exact_mod_cast hx
  have hyb : (y : ℤ) < (N : ℤ) := by exact_mod_cast hy
  rw [if_pos ⟨Int.ofNat_nonneg x, hxb, Int.ofNat_nonneg y, hyb⟩]

section ConcreteEvaluations

attribute [local semireducible] Rat.add Rat.mul Rat.sub Rat.inv

/-- Claim C3 (evaluation at the failing input): painting the four cells of
the 2×2 grid in sequence all succeeds, the fourth paint completes the round
(outcome is the success branch and a snapshot is emitted), the new grid size
is 3, the room and snapshot painted counters are 0, the size-3 snapshot grid
is fully unpainted — but each player's gold increases by
`currentGridSize * GOLD_REWARD_BASE = 2 * 25 = 50`, not by
`4 * GOLD_REWARD_BASE = 100` as the claim (and the config comment
`reward = gridSize * gridSize * base`) states. -/
theorem grid2_completion_scenario :
    s1.event.success = true ∧ s2.event.success = true ∧
    s3.event.success = true ∧ s4.event.success = true ∧
    s4.outcome = PaintOutcome.painted ∧
    s4.room.currentGridSize = 3 ∧
    s4.room.paintedCellsCount = 0 ∧
    s4.snapshot = some (getGameState s4.room) ∧
    (getGameState s4.room).gridSize = 3 ∧
    (getGameState s4.room).progress.paintedCells = 0 ∧
    s4.room.grid.length = 3 ∧
    (s4.room.grid.all fun row => row.all fun c => !c.painted) = true ∧
    (getPlayer s4.room "p1").map Player.gold = some (2 * GOLD_REWARD_BASE) ∧
    (getPlayer s4.room "p1").map Player.paintSupply = some 80 ∧
    (2 * GOLD_REWARD_BASE : ℚ) = 50 ∧ (4 * GOLD_REWARD_BASE : ℚ) = 100 ∧
    (getPlayer s4.room "p1").map Player.gold ≠ some (4 * GOLD_REWARD_BASE) := by
  decide

/-- Counterexample to claim C1 as stated: the code keeps no per-player
painted-cell counter.  After a successful paint the stored player record
equals the original record with only `paintSupply` replaced — no field of
the player was incremented (the `Player` record of the code has no
painted-cell counter at all). -/
theorem paint_success_changes_only_supply :
    s1.event.success = true ∧
    getPlayer room0 "p1" = some playerA ∧
    getPlayer s1.room "p1" = some { playerA with paintSupply := 95 } := by
  decide

/-- Counterexample to claim C6 as stated: a player at the base maximum supply
of 100 who owns a `maxPaintSupply` upgrade level stands inside the recharge
zone, yet the server emits no paint-supply update and leaves the supply at
100, while the claimed increment clamped to the upgrade-adjusted maximum
(100 + 1*30 = 130) would yield 102. -/
theorem recharge_ignores_upgrade_capacity :
    isInCircularZone posZone
      (roomTank.currentGridSize * CELL_PIXEL_SIZE / 2 + RECHARGE_ZONE_OFFSET_X)
      0 RECHARGE_ZONE_RADIUS = true ∧
    playerTank.upgrades.maxPaintSupply = 1 ∧
    getPlayer roomTank "p1" = some playerTank ∧
    (updatePlayerPosition roomTank "p1" posZone).2 = none ∧
    (getPlayer (updatePlayerPosition roomTank "p1" posZone).1 "p1").map
      Player.paintSupply = some 100 ∧
    clamp (playerTank.paintSupply + RECHARGE_RATE) 0
      (upgradeAdjustedMaxPaintSupply playerTank.upgrades.maxPaintSupply) = 102 ∧
    (102 : ℚ) ≠ 100 := by
  decide

/-- Witness for C1: the failure characterisation instantiated at the fresh
2×2 room and the cell-centre request. -/
theorem processPaintCell_spec_witness :
    (processPaintCell rc0 room0 reqA "p1").event.success = false ↔
      (getPlayer room0 "p1" = none ∨
       (∃ p, getPlayer room0 "p1" = some p ∧
         p.paintSupply < PAINT_COST_PER_CELL) ∨
       worldToGrid reqA.position room0.currentGridSize CELL_PIXEL_SIZE = none ∨
       (∃ gx gy : ℤ, ∃ cell : GridCell,
         worldToGrid reqA.position room0.currentGridSize CELL_PIXEL_SIZE =
           some (gx, gy) ∧
         getCell room0.grid gx gy = some cell ∧
         (cell.painted = true ∨ cell.number ≠ reqA.colorNumber))) :=
  (processPaintCell_spec rc0 room0 reqA "p1" (by decide)).1

/-- Witness for C4: painting the already painted cell (0,0) fails and leaves
the room unchanged. -/
theorem painted_cell_is_final_witness :
    (processPaintCell rc0 s1.room reqA "p1").event.success = false ∧
    (processPaintCell rc0 s1.room reqA "p1").room = s1.room :=
  (painted_cell_is_final rc0 s1.room reqA "p1").1 0 0
    ⟨0, 0, 1, some "#FF6B6B", true⟩ (by decide) (by decide) (by decide)

/-- Witness for C6: the recharge update instantiated at the fresh room's
player standing at the recharge-zone centre. -/
theorem updatePlayerPosition_spec_witness :
    (getPlayer (updatePlayerPosition room0 "p1" posZone).1 "p1").map
      Player.position = some posZone ∧
    (if isInCircularZone posZone
          (room0.currentGridSize * CELL_PIXEL_SIZE / 2 + RECHARGE_ZONE_OFFSET_X)
          0 RECHARGE_ZONE_RADIUS = true ∧ playerA.paintSupply < MAX_PAINT_SUPPLY
     then
      (getPlayer (updatePlayerPosition room0 "p1" posZone).1 "p1").map
        Player.paintSupply =
        some (clamp (playerA.paintSupply + RECHARGE_RATE) 0 MAX_PAINT_SUPPLY) ∧
      (updatePlayerPosition room0 "p1" posZone).2 =
        some ⟨playerA.id, clamp (playerA.paintSupply + RECHARGE_RATE) 0 MAX_PAINT_SUPPLY⟩
     else
      (getPlayer (updatePlayerPosition room0 "p1" posZone).1 "p1").map
        Player.paintSupply = some playerA.paintSupply ∧
      (updatePlayerPosition room0 "p1" posZone).2 = none) :=
  (updatePlayerPosition_spec room0 "p1" posZone).2 playerA (by decide)

/-- Witness for C7: the routing equivalence instantiated at the fresh room
and the cell-centre request. -/
theorem paint_response_routing_witness :
    ((processPaintCell rc0 room0 reqA "p1").delivery = Delivery.toRequester ↔
      ((processPaintCell rc0 room0 reqA "p1").outcome = .unknownPlayer ∨
       (processPaintCell rc0 room0 reqA "p1").outcome = .outOfPaint ∨
       (processPaintCell rc0 room0 reqA "p1").outcome = .outsideGrid)) :=
  (paint_response_routing rc0 room0 reqA "p1" (by decide)).1

/-- Witness for C8: the centre of cell (1,2) of a 3×3 grid with 50-pixel
cells maps back to (1,2). -/
theorem worldToGrid_cell_center_roundtrip_witness :
    worldToGrid
      ⟨-((3 : ℕ) * (50 : ℚ)) / 2 + (((1 : ℕ) : ℚ) + 1/2) * 50,
       -((3 : ℕ) * (50 : ℚ)) / 2 + (((2 : ℕ) : ℚ) + 1/2) * 50⟩
      3 50 = some (((1 : ℕ) : ℤ), ((2 : ℕ) : ℤ)) :=
  worldToGrid_cell_center_roundtrip 3 50 1 2 (by decide) (by decide) (by decide)

/-- Witness for C9: sweeping the concrete ledger at `now = 1000` re-sends the
stale entry "0,0" with an incremented retry counter and a fresh timestamp. -/
theorem cleanupStalePendingCells_spec_witness :
    (("0,0", (⟨1000, 1, ⟨-25, -25⟩, 1⟩ : PendingInfo)) ∈
      (cleanupStalePendingCells "me" 1000 pending0).1) ∧
    ((⟨"me", ⟨-25, -25⟩, 1⟩ : PaintCellRequest) ∈
      (cleanupStalePendingCells "me" 1000 pending0).2) :=
  (cleanupStalePendingCells_spec "me" 1000 pending0 (by decide) "0,0"
      ⟨0, 0, ⟨-25, -25⟩, 1⟩ (by decide)).2.1 (by decide) (by decide)

/-- Witness for C10: the supply invariant after a recharge update, a paint
request and a gold award on the fresh room. -/
theorem paintSupply_invariant_witness :
    SupplyInv (updatePlayerPosition room0 "p1" posZone).1 ∧
    SupplyInv (processPaintCell rc0 room0 reqA "p1").room ∧
    SupplyInv (awardGoldToAllPlayers room0) :=
  ⟨(paintSupply_invariant room0 (by decide)).2.1 "p1" posZone,
   (paintSupply_invariant room0 (by decide)).2.2.1 rc0 reqA "p1",
   (paintSupply_invariant room0 (by decide)).2.2.2.1⟩

end ConcreteEvaluations

end PaintGame
